import Mathlib

/-!
Verification of the x64_writer repository: a textual-assembly emission layer
for an x86-64 code generator.  The Rust source (src/register.rs, src/args.rs,
src/label.rs, src/writer.rs) is shallowly embedded below: pure rendering
functions become Lean functions over `String`, and every `panic!` /
`assert_eq!` / `unwrap` failure path becomes `none` in an `Option` result.
Machine integers are modelled as `Int` (signed payloads) and `Nat` (unsigned
payloads), with explicit two's-complement wrapping where the Rust `+=`
operates at a fixed width.
-/

/-- The sixteen general-purpose register identities (src/register.rs, enum RegisterName). -/
inductive RegisterName
  | A | B | C | D
  | SI | DI | SP | BP
  | R8 | R9 | R10 | R11 | R12 | R13 | R14 | R15
deriving DecidableEq, Repr

/-- The four register widths (src/register.rs, enum RegisterSize). -/
inductive RegisterSize
  | Byte | Word | Double | Quad
deriving DecidableEq, Repr

namespace RegisterName

/-- Base name text of a register identity (src/register.rs, RegisterName::name). -/
def name : RegisterName → String
  | A => "a"
  | B => "b"
  | C => "c"
  | D => "d"
  | SI => "si"
  | DI => "di"
  | SP => "sp"
  | BP => "bp"
  | R8 => "r8"
  | R9 => "r9"
  | R10 => "r10"
  | R11 => "r11"
  | R12 => "r12"
  | R13 => "r13"
  | R14 => "r14"
  | R15 => "r15"

/-- src/register.rs, RegisterName::is_sandwich. -/
def is_sandwich : RegisterName → Bool
  | A | B | C | D => true
  | _ => false

/-- src/register.rs, RegisterName::is_pointer. -/
def is_pointer : RegisterName → Bool
  | SI | DI | SP | BP => true
  | _ => false

/-- src/register.rs, RegisterName::is_numbered. -/
def is_numbered : RegisterName → Bool
  | R8 | R9 | R10 | R11 | R12 | R13 | R14 | R15 => true
  | _ => false

end RegisterName

namespace RegisterSize

/-- Affixes for the accumulator-style family (src/register.rs, RegisterSize::sandwich_affixes). -/
def sandwich_affixes : RegisterSize → String × String
  | Byte => ("", "l")
  | Word => ("", "x")
  | Double => ("e", "x")
  | Quad => ("r", "x")

/-- Affixes for the pointer-style family (src/register.rs, RegisterSize::pointer_affixes). -/
def pointer_affixes : RegisterSize → String × String
  | Byte => ("", "l")
  | Word => ("", "")
  | Double => ("e", "")
  | Quad => ("r", "")

/-- Affixes for the numbered family (src/register.rs, RegisterSize::numbered_affixes). -/
def numbered_affixes : RegisterSize → String × String
  | Byte => ("", "b")
  | Word => ("", "w")
  | Double => ("", "d")
  | Quad => ("", "")

end RegisterSize

/-- A register used at a specific width (src/register.rs, struct Register). -/
structure Register where
  rname : RegisterName
  rsize : RegisterSize
deriving DecidableEq, Repr

/-- The affix pair chosen by the register's family, as in the `Display for Register`
implementation (src/register.rs).  The Rust source has a trailing `unreachable!()`
branch; the three family predicates are exhaustive (proved in
`register_family_total` below), so the final `else` branch here corresponds to
the numbered-family case. -/
def Register.affixes (r : Register) : String × String :=
  if r.rname.is_sandwich then r.rsize.sandwich_affixes
  else if r.rname.is_pointer then r.rsize.pointer_affixes
  else r.rsize.numbered_affixes

/-- Text rendering of a register (src/register.rs, impl Display for Register). -/
def Register.render (r : Register) : String :=
  "%" ++ r.affixes.1 ++ r.rname.name ++ r.affixes.2

/-- The affix table of spec §4.1, written from the spec's words for comparison
with the source-derived rendering: accumulator-style {A,B,C,D} uses
byte→(∅,"l"), word→(∅,"x"), double→("e","x"), quad→("r","x"); pointer-style
{SI,DI,SP,BP} uses byte→(∅,"l"), word→(∅,∅), double→("e",∅), quad→("r",∅);
numbered {R8..R15} uses byte→(∅,"b"), word→(∅,"w"), double→(∅,"d"),
quad→(∅,∅). -/
def affixTableSpec (n : RegisterName) (s : RegisterSize) : String × String :=
  match n with
  | .A | .B | .C | .D =>
    match s with
    | .Byte => ("", "l")
    | .Word => ("", "x")
    | .Double => ("e", "x")
    | .Quad => ("r", "x")
  | .SI | .DI | .SP | .BP =>
    match s with
    | .Byte => ("", "l")
    | .Word => ("", "")
    | .Double => ("e", "")
    | .Quad => ("r", "")
  | _ =>
    match s with
    | .Byte => ("", "b")
    | .Word => ("", "w")
    | .Double => ("", "d")
    | .Quad => ("", "")

/-- Instruction size-suffix classes (src/args.rs, enum ArgSize). -/
inductive ArgSize
  | Byte | Word | Double | Quad
deriving DecidableEq, Repr

/-- Size suffix letter (src/args.rs, ArgSize::suffix). -/
def ArgSize.suffix : ArgSize → String
  | Byte => "b"
  | Word => "w"
  | Double => "l"
  | Quad => "q"

/-- Immediate/displacement values (src/args.rs, enum ConstInt).  Signed payloads
are modelled as `Int`, unsigned payloads as `Nat`; a Rust value always satisfies
the width bound, and no claim depends on the bound, so the payload types are
left unbounded. -/
inductive ConstInt
  | I8 (v : Int)
  | U8 (v : Nat)
  | I32 (v : Int)
  | U32 (v : Nat)
  | I64 (v : Int)
  | U64 (v : Nat)
deriving DecidableEq, Repr

namespace ConstInt

/-- src/args.rs, ConstInt::is_zero. -/
def is_zero : ConstInt → Bool
  | I8 v => v == 0
  | U8 v => v == 0
  | I32 v => v == 0
  | U32 v => v == 0
  | I64 v => v == 0
  | U64 v => v == 0

/-- src/args.rs, ConstInt::is_negative: unsigned variants are never negative. -/
def is_negative : ConstInt → Bool
  | I8 v => v < 0
  | U8 _ => false
  | I32 v => v < 0
  | U32 _ => false
  | I64 v => v < 0
  | U64 _ => false

/-- Decimal text of the payload (src/args.rs, impl Display for ConstInt). -/
def render : ConstInt → String
  | I8 v => toString v
  | U8 v => toString v
  | I32 v => toString v
  | U32 v => toString v
  | I64 v => toString v
  | U64 v => toString v

/-- Two's-complement wrap of a signed sum to `w` bits, the value semantics of
Rust's fixed-width `+` on a signed integer. -/
def wrapS (w : Nat) (v : Int) : Int :=
  (v + 2 ^ (w - 1)) % 2 ^ w - 2 ^ (w - 1)

/-- Wrap of an unsigned sum to `w` bits. -/
def wrapU (w : Nat) (v : Nat) : Nat :=
  v % 2 ^ w

/-- Accumulation (src/args.rs, impl AddAssign for ConstInt).  The source match
covers only the (I32,I32), (U32,U32), (I64,I64) and (U64,U64) pairs; every
other pair, including (I8,I8) and (U8,U8), hits `_ => panic!()`, modelled as
`none`. -/
def addAssign : ConstInt → ConstInt → Option ConstInt
  | I32 a, I32 b => some (I32 (wrapS 32 (a + b)))
  | U32 a, U32 b => some (U32 (wrapU 32 (a + b)))
  | I64 a, I64 b => some (I64 (wrapS 64 (a + b)))
  | U64 a, U64 b => some (U64 (wrapU 64 (a + b)))
  | _, _ => none

/-- The width+signedness variant tag of a value, used to state the
same-variant accumulation rule. -/
def variant : ConstInt → Nat
  | I8 _ => 0
  | U8 _ => 1
  | I32 _ => 2
  | U32 _ => 3
  | I64 _ => 4
  | U64 _ => 5

end ConstInt

/-- Index multiplier (src/args.rs, enum Scale). -/
inductive Scale
  | One | Two | Four | Eight
deriving DecidableEq, Repr

/-- src/args.rs, impl Display for Scale. -/
def Scale.render : Scale → String
  | One => "1"
  | Two => "2"
  | Four => "4"
  | Eight => "8"

/-- base+index*scale addressing detail (src/args.rs, struct SibMemory). -/
structure SibMemory where
  base : Option Register
  index : Option (Register × Scale)
deriving DecidableEq, Repr

/-- src/args.rs, impl Display for SibMemory: a parenthesized group appears only
when a base or an index is present; the index is always preceded by ", "; the
scale is printed only when it is not 1. -/
def SibMemory.render (m : SibMemory) : String :=
  let any := m.base.isSome || m.index.isSome
  (if any then "(" else "")
    ++ (match m.base with
        | some b => b.render
        | none => "")
    ++ (match m.index with
        | some (i, s) => ", " ++ i.render ++ (if s ≠ Scale.One then ", " ++ s.render else "")
        | none => "")
    ++ (if any then ")" else "")

/-- Addressing kind (src/args.rs, enum MemoryKind). -/
inductive MemoryKind
  | Rip
  | Sib (m : SibMemory)
deriving DecidableEq, Repr

/-- src/args.rs, impl Display for MemoryKind. -/
def MemoryKind.render : MemoryKind → String
  | Rip => "(%rip)"
  | Sib m => m.render

/-- A memory operand (src/args.rs, struct Memory).  The borrowed label text is
modelled as a `String`. -/
structure Memory where
  msize : Option ArgSize
  displacement_label : Option String
  displacement_constant : Option ConstInt
  kind : MemoryKind
deriving DecidableEq, Repr

namespace Memory

/-- src/args.rs, Memory::sib. -/
def sib : Memory :=
  { msize := none
    displacement_label := none
    displacement_constant := none
    kind := MemoryKind.Sib { base := none, index := none } }

/-- src/args.rs, Memory::rip. -/
def rip : Memory :=
  { msize := none
    displacement_label := none
    displacement_constant := none
    kind := MemoryKind.Rip }

/-- src/args.rs, Memory::base: `let MemoryKind::Sib(m) = &mut self.kind else { panic!() }`;
on RIP-relative memory the `panic!()` is modelled as `none`. -/
def base (m : Memory) (b : Register) : Option Memory :=
  match m.kind with
  | MemoryKind.Sib s => some { m with kind := MemoryKind.Sib { s with base := some b } }
  | MemoryKind.Rip => none

/-- src/args.rs, Memory::index: fails on RIP-relative memory like `base`. -/
def index (m : Memory) (i : Register) (s : Scale) : Option Memory :=
  match m.kind with
  | MemoryKind.Sib sm => some { m with kind := MemoryKind.Sib { sm with index := some (i, s) } }
  | MemoryKind.Rip => none

/-- src/args.rs, Memory::offset: accumulates into an existing constant
displacement via `ConstInt::add_assign` (whose panic propagates), otherwise
stores the given displacement. -/
def offset (m : Memory) (disp : ConstInt) : Option Memory :=
  match m.displacement_constant with
  | some c => (c.addAssign disp).map fun c2 => { m with displacement_constant := some c2 }
  | none => some { m with displacement_constant := some disp }

/-- src/args.rs, Memory::label: `panic!()` when a label is already attached. -/
def label (m : Memory) (l : String) : Option Memory :=
  match m.displacement_label with
  | some _ => none
  | none => some { m with displacement_label := some l }

/-- src/args.rs, impl Display for Memory: the optional label, then the constant
when non-zero (with a "+" separator exactly when a label is present and the
constant is not negative), then the addressing kind. -/
def render (m : Memory) : String :=
  (match m.displacement_label with
   | some l => l
   | none => "")
    ++ (match m.displacement_constant with
        | some c =>
          if c.is_zero then ""
          else (if m.displacement_label.isSome && !c.is_negative then "+" else "") ++ c.render
        | none => "")
    ++ m.kind.render

end Memory

/-- src/label.rs, Label::rip: `Memory::rip().label(self.label)`. -/
def Label.ripMem (l : String) : Option Memory :=
  Memory.rip.label l

/-- An instruction operand (src/args.rs, enum Arg). -/
inductive Arg
  | Register (r : Register)
  | Label (l : String)
  | Int (c : ConstInt)
  | Memory (m : Memory)
deriving DecidableEq, Repr

namespace Arg

/-- src/args.rs, Arg::size: a register's width, an immediate's size class,
a memory operand's own declared size (possibly absent), absent for a label. -/
def size : Arg → Option ArgSize
  | Register r =>
    some (match r.rsize with
          | RegisterSize.Byte => ArgSize.Byte
          | RegisterSize.Word => ArgSize.Word
          | RegisterSize.Double => ArgSize.Double
          | RegisterSize.Quad => ArgSize.Quad)
  | Int c =>
    some (match c with
          | ConstInt.I8 _ | ConstInt.U8 _ => ArgSize.Byte
          | ConstInt.I32 _ => ArgSize.Double
          | ConstInt.U32 _ => ArgSize.Double
          | ConstInt.I64 _ | ConstInt.U64 _ => ArgSize.Quad)
  | Label _ => none
  | Memory m => m.msize

/-- src/args.rs, Arg::is_register. -/
def is_register : Arg → Bool
  | Register _ => true
  | _ => false

/-- src/args.rs, Arg::is_memory. -/
def is_memory : Arg → Bool
  | Memory _ => true
  | _ => false

/-- src/args.rs, impl Display for Arg. -/
def render : Arg → String
  | Int c => "$" ++ c.render
  | Label l => l
  | Register r => r.render
  | Memory m => m.render

end Arg

/-- Condition codes (src/writer.rs, enum Condition). -/
inductive Condition
  | Zero | NotZero | Equal | NotEqual
  | Negative | NonNegative
  | GreaterThan | LessThan | GreaterEqual | LessEqual
  | Above | Below | AboveEqual | BelowEqual
deriving DecidableEq, Repr

/-- src/writer.rs, Condition::suffix. -/
def Condition.suffix : Condition → String
  | Zero => "z"
  | NotZero => "nz"
  | Equal => "e"
  | NotEqual => "ne"
  | Negative => "s"
  | NonNegative => "ns"
  | GreaterThan => "g"
  | LessThan => "l"
  | GreaterEqual => "ge"
  | LessEqual => "le"
  | Above => "a"
  | Below => "b"
  | AboveEqual => "ae"
  | BelowEqual => "be"

/-- Size inference over an operand pair (src/writer.rs, fn get_size).
`(None, None)` hits `panic!()` and an unequal `Some`/`Some` pair fails the
`assert_eq!`; both are modelled as `none`. -/
def get_size (a b : Arg) : Option ArgSize :=
  match a.size, b.size with
  | none, none => none
  | some s, none => some s
  | none, some s => some s
  | some s, some t => if s = t then some s else none

/-- src/writer.rs, AsmWriter::build_mov: one line
`\tmov<suffix> <src>, <dst>\n`, with the suffix from `get_size` (whose
failures propagate). -/
def build_mov (dst src : Arg) : Option String :=
  (get_size dst src).map fun sz =>
    "\tmov" ++ sz.suffix ++ " " ++ src.render ++ ", " ++ dst.render ++ "\n"

/-- src/writer.rs, AsmWriter::build_cmov: one line
`\tcmov<condition suffix> <src>, <dst>\n`; the source has no panic path, so
the result is always `some`. -/
def build_cmov (c : Condition) (dst src : Arg) : Option String :=
  some ("\tcmov" ++ c.suffix ++ " " ++ src.render ++ ", " ++ dst.render ++ "\n")

/-- src/writer.rs, AsmWriter::build_call: a `*` indirection marker exactly when
the operand is a memory or register operand. -/
def build_call (dst : Arg) : String :=
  let star := if dst.is_memory || dst.is_register then "*" else ""
  "\tcall " ++ star ++ dst.render ++ "\n"

/-- src/writer.rs, AsmWriter::build_jmp: same indirection rule as build_call. -/
def build_jmp (dst : Arg) : String :=
  let star := if dst.is_memory || dst.is_register then "*" else ""
  "\tjmp " ++ star ++ dst.render ++ "\n"

/-- The three family predicates of the register model cover all sixteen
identities, so the `unreachable!()` branch in `Display for Register`
(src/register.rs) can never run. -/
theorem register_family_total (n : RegisterName) :
    n.is_sandwich = true ∨ n.is_pointer = true ∨ n.is_numbered = true := by
  cases n <;> simp [RegisterName.is_sandwich, RegisterName.is_pointer,
    RegisterName.is_numbered]

/-- C1: size inference over a pair of operands: if neither operand has a known
size it fails fatally (`none`); if exactly one has a known size the result is
that size; if both have known equal sizes the result is that common size; if
both have known but differing sizes it fails fatally. -/
theorem get_size_cases (a b : Arg) :
    (a.size = none → b.size = none → get_size a b = none)
    ∧ (∀ s, a.size = some s → b.size = none → get_size a b = some s)
    ∧ (∀ s, b.size = some s → a.size = none → get_size a b = some s)
    ∧ (∀ s, a.size = some s → b.size = some s → get_size a b = some s)
    ∧ (∀ s t, a.size = some s → b.size = some t → s ≠ t → get_size a b = none) := by
  refine ⟨?_, ?_, ?_, ?_, ?_⟩
  · intro ha hb; simp [get_size, ha, hb]
  · intro s ha hb; simp [get_size, ha, hb]
  · intro s hb ha; simp [get_size, ha, hb]
  · intro s ha hb; simp [get_size, ha, hb]
  · intro s t ha hb hst; simp [get_size, ha, hb, hst]

/-- Witness for C1: all four cases of `get_size_cases` at concrete operands. -/
theorem get_size_cases_witness :
    get_size (Arg.Register (Register.mk .A .Quad)) (Arg.Label ("f")) = some ArgSize.Quad
    ∧ get_size (Arg.Label ("f")) (Arg.Register (Register.mk .A .Quad)) = some ArgSize.Quad
    ∧ get_size (Arg.Register (Register.mk .A .Quad)) (Arg.Register (Register.mk .B .Quad))
        = some ArgSize.Quad
    ∧ get_size (Arg.Label ("f")) (Arg.Label ("g")) = none
    ∧ get_size (Arg.Register (Register.mk .A .Quad)) (Arg.Register (Register.mk .B .Double))
        = none := by
  refine ⟨?_, ?_, ?_, ?_, ?_⟩
  · exact (get_size_cases _ _).2.1 ArgSize.Quad rfl rfl
  · exact (get_size_cases _ _).2.2.1 ArgSize.Quad rfl rfl
  · exact (get_size_cases _ _).2.2.2.1 ArgSize.Quad rfl rfl
  · exact (get_size_cases _ _).1 rfl rfl
  · exact (get_size_cases _ _).2.2.2.2 ArgSize.Quad ArgSize.Double rfl rfl (by decide)

/-- C2: register rendering is deterministic (it is a function of the name and
size alone) and equals "%" ++ prefix-affix ++ base-name ++ suffix-affix with
the affix pair drawn from the family table of spec §4.1; in particular A at
byte renders %al, A at quad renders %rax, SP at word renders %sp, SP at quad
renders %rsp, R12 at byte renders %r12b and R12 at quad renders %r12. -/
theorem register_render_matches_table :
    (∀ (n : RegisterName) (s : RegisterSize),
      (Register.mk n s).render
        = "%" ++ (affixTableSpec n s).1 ++ n.name ++ (affixTableSpec n s).2)
    ∧ (Register.mk .A .Byte).render = "%al"
    ∧ (Register.mk .A .Quad).render = "%rax"
    ∧ (Register.mk .SP .Word).render = "%sp"
    ∧ (Register.mk .SP .Quad).render = "%rsp"
    ∧ (Register.mk .R12 .Byte).render = "%r12b"
    ∧ (Register.mk .R12 .Quad).render = "%r12" := by
  refine ⟨?_, rfl, rfl, rfl, rfl, rfl, rfl⟩
  intro n s
  cases n <;> cases s <;> rfl

/-- C3: for every memory operand, the displacement part of the rendering is the
symbolic label first when present, then the constant only when it is non-zero,
with a "+" separator inserted exactly when a label is present and the rendered
constant is non-negative; a RIP-relative memory built from label "name" with
constant offset 8 renders "name+8(%rip)", with offset -8 renders
"name-8(%rip)", and with no constant renders "name(%rip)". -/
theorem memory_displacement_render :
    (∀ m : Memory, m.render
        = (match m.displacement_label with
           | some l => l
           | none => "")
          ++ (match m.displacement_constant with
              | some c =>
                if c.is_zero then ""
                else (if m.displacement_label.isSome && !c.is_negative then "+" else "")
                  ++ c.render
              | none => "")
          ++ m.kind.render)
    ∧ ((Label.ripMem ("name")).bind (fun m => m.offset (ConstInt.I64 8))).map Memory.render
        = some ("name+8(%rip)")
    ∧ ((Label.ripMem ("name")).bind (fun m => m.offset (ConstInt.I64 (-8)))).map Memory.render
        = some ("name-8(%rip)")
    ∧ (Label.ripMem ("name")).map Memory.render = some ("name(%rip)") := by
  refine ⟨fun m => rfl, ?_, ?_, rfl⟩
  · rfl
  · rfl

/-- C4: for every SIB addressing detail, the rendering is a parenthesized group
present exactly when a base or an index is present, with the base first, the
index always preceded by a comma (even with an empty base slot), and the scale
omitted exactly when it equals 1; a SIB memory with base %rax, index
(%rbx, scale 4) and constant offset 8 renders "8(%rax, %rbx, 4)", and with
scale 1 and no offset it renders "(%rax, %rbx)". -/
theorem sib_render_shape :
    (∀ s : SibMemory, s.render
        = if s.base.isNone && s.index.isNone then ""
          else
            "(" ++ (match s.base with
                    | some b => b.render
                    | none => "")
              ++ (match s.index with
                  | some (i, sc) =>
                    ", " ++ i.render ++ (if sc = Scale.One then "" else ", " ++ sc.render)
                  | none => "")
              ++ ")")
    ∧ (((Memory.sib.base (Register.mk .A .Quad)).bind
          (fun m => m.index (Register.mk .B .Quad) Scale.Four)).bind
            (fun m => m.offset (ConstInt.I64 8))).map Memory.render
        = some ("8(%rax, %rbx, 4)")
    ∧ ((Memory.sib.base (Register.mk .A .Quad)).bind
          (fun m => m.index (Register.mk .B .Quad) Scale.One)).map Memory.render
        = some ("(%rax, %rbx)") := by
  refine ⟨?_, rfl, rfl⟩
  intro s
  rcases s with ⟨b, i⟩
  cases b <;> rcases i with _ | ⟨r, sc⟩ <;> first | rfl | (cases sc <;> rfl)

/-- C5 counterexample: accumulation between two values of the *same* byte
variant fails fatally (the source's `AddAssign` match covers only the 32- and
64-bit diagonal pairs, so `(I8, I8)` and `(U8, U8)` fall into `_ => panic!()`);
likewise `Memory::offset` of a byte constant into a stored byte constant fails.
This refutes the claim that accumulation is valid between any two values of the
same variant. -/
theorem constint_byte_accumulation_fails :
    ConstInt.addAssign (ConstInt.I8 0) (ConstInt.I8 0) = none
    ∧ ConstInt.variant (ConstInt.I8 0) = ConstInt.variant (ConstInt.I8 0)
    ∧ ConstInt.addAssign (ConstInt.U8 1) (ConstInt.U8 1) = none
    ∧ (Memory.sib.offset (ConstInt.U8 1)).bind (fun m => m.offset (ConstInt.U8 1)) = none := by
  exact ⟨rfl, rfl, rfl, rfl⟩

/-- C5 (amended): ConstInt accumulation succeeds exactly on same-variant pairs
of the 32- and 64-bit variants, producing their sum wrapped to the variant's
width; it fails fatally on the byte variants (I8, U8) even between equal
variants, and on every pair of differing variants.  Memory::offset stores a
first constant displacement directly and otherwise accumulates under the same
rule, failing fatally exactly when the underlying accumulation does. -/
theorem constint_accumulation_rule :
    (∀ a b : Int, ConstInt.addAssign (ConstInt.I32 a) (ConstInt.I32 b)
        = some (ConstInt.I32 (ConstInt.wrapS 32 (a + b))))
    ∧ (∀ a b : Nat, ConstInt.addAssign (ConstInt.U32 a) (ConstInt.U32 b)
        = some (ConstInt.U32 (ConstInt.wrapU 32 (a + b))))
    ∧ (∀ a b : Int, ConstInt.addAssign (ConstInt.I64 a) (ConstInt.I64 b)
        = some (ConstInt.I64 (ConstInt.wrapS 64 (a + b))))
    ∧ (∀ a b : Nat, ConstInt.addAssign (ConstInt.U64 a) (ConstInt.U64 b)
        = some (ConstInt.U64 (ConstInt.wrapU 64 (a + b))))
    ∧ (∀ a b : Int, ConstInt.addAssign (ConstInt.I8 a) (ConstInt.I8 b) = none)
    ∧ (∀ a b : Nat, ConstInt.addAssign (ConstInt.U8 a) (ConstInt.U8 b) = none)
    ∧ (∀ a b : ConstInt, a.variant ≠ b.variant → ConstInt.addAssign a b = none)
    ∧ (∀ (m : Memory) (disp : ConstInt), m.displacement_constant = none →
        m.offset disp = some { m with displacement_constant := some disp })
    ∧ (∀ (m : Memory) (c disp : ConstInt), m.displacement_constant = some c →
        m.offset disp
          = (c.addAssign disp).map fun c2 => { m with displacement_constant := some c2 }) := by
  refine ⟨fun a b => rfl, fun a b => rfl, fun a b => rfl, fun a b => rfl,
    fun a b => rfl, fun a b => rfl, ?_, ?_, ?_⟩
  · intro a b h
    cases a <;> cases b <;> first | rfl | exact absurd rfl h
  · intro m disp h
    simp [Memory.offset, h]
  · intro m c disp h
    simp [Memory.offset, h]

/-- Witness for C5 (amended): `constint_accumulation_rule` applied at concrete
values, discharging each hypothesis. -/
theorem constint_accumulation_rule_witness :
    ConstInt.addAssign (ConstInt.I32 1) (ConstInt.U32 1) = none
    ∧ Memory.sib.offset (ConstInt.I64 2)
        = some { Memory.sib with displacement_constant := some (ConstInt.I64 2) }
    ∧ ({ Memory.sib with displacement_constant := some (ConstInt.I64 2) } : Memory).offset
          (ConstInt.I64 3)
        = (ConstInt.addAssign (ConstInt.I64 2) (ConstInt.I64 3)).map fun c2 =>
            { Memory.sib with displacement_constant := some c2 } := by
  refine ⟨?_, ?_, ?_⟩
  · exact constint_accumulation_rule.2.2.2.2.2.2.1 (ConstInt.I32 1) (ConstInt.U32 1) (by decide)
  · exact constint_accumulation_rule.2.2.2.2.2.2.2.1 Memory.sib (ConstInt.I64 2) rfl
  · exact constint_accumulation_rule.2.2.2.2.2.2.2.2
      { Memory.sib with displacement_constant := some (ConstInt.I64 2) }
      (ConstInt.I64 2) (ConstInt.I64 3) rfl

/-- C6: the builder contract of memory operands: `base`/`index` fail fatally on
RIP-relative memory; `label` fails fatally when a symbolic displacement is
already attached; and on a SIB-kind memory with no label attached all three
calls succeed. -/
theorem memory_builder_contract (m : Memory) (r : Register) (sc : Scale) (l : String) :
    (m.kind = MemoryKind.Rip → m.base r = none ∧ m.index r sc = none)
    ∧ (m.displacement_label.isSome → m.label l = none)
    ∧ (∀ s, m.kind = MemoryKind.Sib s → m.displacement_label = none →
        (m.base r).isSome ∧ (m.index r sc).isSome ∧ (m.label l).isSome) := by
  refine ⟨?_, ?_, ?_⟩
  · intro h
    exact ⟨by simp [Memory.base, h], by simp [Memory.index, h]⟩
  · intro h
    rcases Option.isSome_iff_exists.mp h with ⟨x, hx⟩
    simp [Memory.label, hx]
  · intro s hk hl
    exact ⟨by simp [Memory.base, hk], by simp [Memory.index, hk], by simp [Memory.label, hl]⟩

/-- Witness for C6: `memory_builder_contract` at concrete memories, registers
and labels. -/
theorem memory_builder_contract_witness :
    (Memory.rip.base (Register.mk .A .Quad) = none
      ∧ Memory.rip.index (Register.mk .A .Quad) Scale.One = none)
    ∧ ({ Memory.rip with displacement_label := some ("x") } : Memory).label ("y") = none
    ∧ ((Memory.sib.base (Register.mk .A .Quad)).isSome
        ∧ (Memory.sib.index (Register.mk .A .Quad) Scale.One).isSome
        ∧ (Memory.sib.label ("x")).isSome) := by
  refine ⟨?_, ?_, ?_⟩
  · exact (memory_builder_contract Memory.rip (Register.mk .A .Quad) Scale.One ("x")).1 rfl
  · exact (memory_builder_contract { Memory.rip with displacement_label := some ("x") }
      (Register.mk .A .Quad) Scale.One ("y")).2.1 rfl
  · exact (memory_builder_contract Memory.sib (Register.mk .A .Quad) Scale.One ("x")).2.2
      { base := none, index := none } rfl rfl

/-- C7: build_mov writes exactly one line consisting of a tab, "mov", the size
suffix inferred from the (dst, src) pair, a space, the rendered source
operand, ", ", the rendered destination operand and a newline — source before
destination; in particular build_mov(%rbx quad, %rax quad) emits
"\tmovq %rax, %rbx\n". -/
theorem build_mov_line :
    (∀ dst src : Arg, build_mov dst src
        = (get_size dst src).map fun sz =>
            "\t" ++ "mov" ++ sz.suffix ++ " " ++ src.render ++ ", " ++ dst.render ++ "\n")
    ∧ build_mov (Arg.Register (Register.mk .B .Quad)) (Arg.Register (Register.mk .A .Quad))
        = some ("\tmovq %rax, %rbx\n") := by
  exact ⟨fun dst src => rfl, rfl⟩

/-- C8: build_call and build_jmp render the operand with a leading indirection
marker "*" exactly when the operand is a register or a memory operand, never
for a label or an immediate; in particular build_call on register %rax emits
"\tcall *%rax\n" and build_call on a label emits "\tcall label\n". -/
theorem build_call_jmp_star :
    (∀ dst : Arg, build_call dst
        = "\t" ++ "call " ++ (if dst.is_memory || dst.is_register then "*" else "")
            ++ dst.render ++ "\n")
    ∧ (∀ dst : Arg, build_jmp dst
        = "\t" ++ "jmp " ++ (if dst.is_memory || dst.is_register then "*" else "")
            ++ dst.render ++ "\n")
    ∧ (∀ r, build_call (Arg.Register r) = "\tcall " ++ "*" ++ (Arg.Register r).render ++ "\n")
    ∧ (∀ m, build_call (Arg.Memory m) = "\tcall " ++ "*" ++ (Arg.Memory m).render ++ "\n")
    ∧ (∀ l, build_call (Arg.Label l) = "\tcall " ++ (Arg.Label l).render ++ "\n")
    ∧ (∀ c, build_call (Arg.Int c) = "\tcall " ++ (Arg.Int c).render ++ "\n")
    ∧ build_call (Arg.Register (Register.mk .A .Quad)) = "\tcall *%rax\n"
    ∧ build_call (Arg.Label ("label")) = "\tcall label\n" := by
  exact ⟨fun dst => rfl, fun dst => rfl, fun r => rfl, fun m => rfl, fun l => rfl,
    fun c => rfl, rfl, rfl⟩

/-- C9 counterexample: an operand that is a Memory (not a Label) whose size is
absent — `Memory::sib()` declares no size, so `Arg::size` returns `none` for
it.  This refutes the claim that size is absent only for labels. -/
theorem arg_size_absent_memory :
    (Arg.Memory Memory.sib).size = none ∧ (Arg.Memory Memory.sib).is_memory = true := by
  exact ⟨rfl, rfl⟩

/-- C9 (amended): Arg::size is absent exactly when the operand is a Label or a
Memory operand whose own declared size is unset; Register and Immediate
operands always have a defined size. -/
theorem arg_size_absent_iff :
    (∀ a : Arg, a.size = none
        ↔ (∃ l, a = Arg.Label l) ∨ (∃ m, a = Arg.Memory m ∧ m.msize = none))
    ∧ (∀ r, (Arg.Register r).size.isSome = true)
    ∧ (∀ c, (Arg.Int c).size.isSome = true) := by
  refine ⟨?_, fun r => rfl, fun c => rfl⟩
  intro a
  cases a <;> simp [Arg.size]

/-- C10: build_cmov performs no size inference or size-agreement check: for
every condition and every pair of operands it never fails fatally and writes
the line tab, "cmov", the condition's suffix, a space, the rendered source,
", ", the rendered destination and a newline — including pairs whose known
sizes differ and pairs where neither operand has a known size, on which
`get_size` would fail. -/
theorem build_cmov_total :
    (∀ (c : Condition) (dst src : Arg), build_cmov c dst src
        = some ("\t" ++ "cmov" ++ c.suffix ++ " " ++ src.render ++ ", " ++ dst.render ++ "\n"))
    ∧ (∀ (c : Condition) (dst src : Arg), (build_cmov c dst src).isSome = true)
    ∧ (get_size (Arg.Register (Register.mk .A .Quad)) (Arg.Register (Register.mk .B .Double))
          = none
        ∧ build_cmov Condition.Zero (Arg.Register (Register.mk .A .Quad))
            (Arg.Register (Register.mk .B .Double))
          = some ("\tcmovz %ebx, %rax\n"))
    ∧ (get_size (Arg.Label ("x")) (Arg.Label ("y")) = none
        ∧ build_cmov Condition.Zero (Arg.Label ("x")) (Arg.Label ("y"))
          = some ("\tcmovz y, x\n")) := by
  exact ⟨fun c dst src => rfl, fun c dst src => rfl, ⟨rfl, rfl⟩, ⟨rfl, rfl⟩⟩
